import Mathlib

/-!
Verification of the content data model of a personal portfolio/blog site.

The repository's content layer consists of two static collections:
a project list (`src/data/projectsData.ts`) and a blog post collection
(markdown documents with YAML front-matter under `src/data/blog/` and one
unnamed markdown source).  The front-matter of each document and the
project records are embedded below verbatim.  The rendering/indexing
collaborator (front-matter parsing, draft filtering, date-descending
sorting, tag grouping) is not part of the supplied sources; those
operations are modelled from the specification and marked as such.
-/

/-- A scalar or list value appearing in a document's YAML front-matter. -/
inductive YamlValue where
  | str (s : String)
  | bool (b : Bool)
  | strList (xs : List String)
deriving DecidableEq, Repr

set_option maxRecDepth 100000

/-- A front-matter block: an ordered list of key/value fields. -/
abbrev FrontMatter : Type := List (String × YamlValue)

/-- Front-matter of `src/data/blog/structs-vs-embedded-schemas.md`, lines 1-9. -/
def structsVsEmbeddedSchemas : FrontMatter :=
  [ ("title", .str "Structs vs Embedded Schemas in Elixir"),
    ("date", .str "2025-04-08"),
    ("tags", .strList ["elixir", "structs", "embedded", "schemas", "ecto", "validation"]),
    ("draft", .bool false),
    ("summary", .str "A comprehensive guide to choosing between structs and embedded schemas in Elixir, with practical examples and best practices"),
    ("images", .strList ["/static/images/blog/structs-vs-embedded-schemas.png"]),
    ("type", .str "Blog") ]

/-- Front-matter of the first document in `src/data/blog/elixir-resources.md`, lines 1-9. -/
def elixirResources : FrontMatter :=
  [ ("title", .str "Resources for learning Elixir"),
    ("date", .str "2024-10-23"),
    ("tags", .strList ["elixir", "learning", "resources"]),
    ("draft", .bool false),
    ("summary", .str "A list of resources to learn Elixir"),
    ("images", .strList []),
    ("type", .str "Blog") ]

/-- Front-matter of the second document in `src/data/blog/elixir-resources.md`, lines 44-52. -/
def makingACustomCredoRule : FrontMatter :=
  [ ("title", .str "Making a Custom Credo Rule"),
    ("date", .str "2025-03-29"),
    ("tags", .strList ["elixir", "credo", "custom", "rule"]),
    ("draft", .bool false),
    ("summary", .str "A guide to making a custom Credo rule"),
    ("images", .strList ["/static/images/blog/making-a-custom-credo-rule.png"]),
    ("type", .str "Blog") ]

/-- Front-matter of the unnamed markdown source (`Understanding OTP`), lines 1-8.
Note: this document declares no `type` field. -/
def understandingOTP : FrontMatter :=
  [ ("title", .str "Understanding OTP"),
    ("date", .str "2024-10-26"),
    ("tags", .strList ["elixir", "otp", "learning"]),
    ("draft", .bool true),
    ("summary", .str "A guide to understand the OTP concurrency model"),
    ("images", .strList []) ]

/-- The blog post collection: the front-matter of every supplied markdown document. -/
def blogDocuments : List FrontMatter :=
  [structsVsEmbeddedSchemas, elixirResources, makingACustomCredoRule, understandingOTP]

/-- Look up a field expected to hold a string value. -/
def getStr (fm : FrontMatter) (k : String) : Option String :=
  match List.lookup k fm with
  | some (.str s) => some s
  | _ => none

/-- Look up a field expected to hold a boolean value. -/
def getBool (fm : FrontMatter) (k : String) : Option Bool :=
  match List.lookup k fm with
  | some (.bool b) => some b
  | _ => none

/-- Look up a field expected to hold a list-of-strings value. -/
def getStrList (fm : FrontMatter) (k : String) : Option (List String) :=
  match List.lookup k fm with
  | some (.strList xs) => some xs
  | _ => none

/-- Numeric value of a decimal digit character. -/
def digitVal (c : Char) : Option Nat :=
  if c.isDigit then some (c.toNat - 48) else none

/-- Gregorian leap-year rule. -/
def isLeapYear (y : Nat) : Bool :=
  (y % 4 == 0 && y % 100 != 0) || y % 400 == 0

/-- Number of days in a month of a given year. -/
def daysInMonth (y m : Nat) : Nat :=
  if m == 2 then (if isLeapYear y then 29 else 28)
  else if m == 4 || m == 6 || m == 9 || m == 11 then 30
  else 31

/-- Modelled from the spec: the `date` front-matter field is an ISO-formatted
string that "must parse as a valid calendar date".  Parses `YYYY-MM-DD` and
checks calendar validity; no parser is present in the supplied sources. -/
def parseDate (s : String) : Option (Nat × Nat × Nat) :=
  match s.toList with
  | [y1, y2, y3, y4, c1, m1, m2, c2, d1, d2] =>
    if c1 = '-' ∧ c2 = '-' then do
      let a ← digitVal y1
      let b ← digitVal y2
      let c ← digitVal y3
      let d ← digitVal y4
      let e ← digitVal m1
      let f ← digitVal m2
      let g ← digitVal d1
      let h ← digitVal d2
      let y := a * 1000 + b * 100 + c * 10 + d
      let mo := e * 10 + f
      let da := g * 10 + h
      if 1 ≤ mo ∧ mo ≤ 12 ∧ 1 ≤ da ∧ da ≤ daysInMonth y mo then
        some (y, mo, da)
      else none
    else none
  | _ => none

/-- The draft flag of a document (absent means not a draft). -/
def draftOf (fm : FrontMatter) : Bool :=
  (getBool fm "draft").getD false

/-- The declared tags of a document. -/
def tagsOf (fm : FrontMatter) : List String :=
  (getStrList fm "tags").getD []

/-- Sort key of a document's date: `y*10000 + m*100 + d` when the date field
parses as a valid calendar date, `0` otherwise. -/
def dateKeyN (fm : FrontMatter) : Nat :=
  match getStr fm "date" with
  | some s =>
    match parseDate s with
    | some (y, mo, da) => y * 10000 + mo * 100 + da
    | none => 0
  | none => 0

/-- Insert a document into a list already sorted by date descending. -/
def insertDesc (fm : FrontMatter) : List FrontMatter → List FrontMatter
  | [] => [fm]
  | e :: es =>
    if dateKeyN e ≤ dateKeyN fm then fm :: e :: es else e :: insertDesc fm es

/-- Modelled from the spec: the rendering collaborator sorts "posts by date
(descending, newest first) for chronological listings"; no sorting code is
present in the supplied sources. -/
def sortByDateDesc (docs : List FrontMatter) : List FrontMatter :=
  docs.foldr insertDesc []

/-- Modelled from the spec: the public chronological listing, obtained by
"filtering out draft posts from public listings" and sorting by date
descending; no listing code is present in the supplied sources. -/
def publicListing : List FrontMatter :=
  sortByDateDesc (blogDocuments.filter (fun fm => !draftOf fm))

/-- Modelled from the spec: the "all posts including drafts" preview view,
the date-sorted collection without the draft filter. -/
def allPostsIncludingDrafts : List FrontMatter :=
  sortByDateDesc blogDocuments

/-- Modelled from the spec: the tag-index page for tag `t` lists the posts
obtained by "grouping posts by tag"; a post belongs to the page iff it
declares the tag. -/
def postsForTag (t : String) : List FrontMatter :=
  blogDocuments.filter (fun fm => (tagsOf fm).contains t)

/-- The blog post record shape given by the spec's external-interface section:
`{title, date, tags, draft, summary, images, type}`. -/
structure PostRecord where
  title : String
  date : String
  tags : List String
  draft : Bool
  summary : String
  images : List String
  type : String
deriving DecidableEq, Repr

/-- Modelled from the spec: parsing a document's front-matter into the record
shape.  Every one of the seven fields must be present with its declared kind
and the date must parse as a valid calendar date; otherwise the result is
`none` (the build fails loudly).  No parser is present in the supplied
sources. -/
def parseFrontMatter (fm : FrontMatter) : Option PostRecord :=
  match getStr fm "title", getStr fm "date", getStrList fm "tags", getBool fm "draft",
        getStr fm "summary", getStrList fm "images", getStr fm "type" with
  | some title, some date, some tags, some draft, some summary, some images, some ty =>
    if (parseDate date).isSome then
      some { title := title, date := date, tags := tags, draft := draft,
             summary := summary, images := images, type := ty }
    else none
  | _, _, _, _, _, _, _ => none

/-- Modelled from the spec: re-serializing a record back to front-matter form,
in the field order every supplied document uses. -/
def serializeFrontMatter (r : PostRecord) : FrontMatter :=
  [ ("title", .str r.title),
    ("date", .str r.date),
    ("tags", .strList r.tags),
    ("draft", .bool r.draft),
    ("summary", .str r.summary),
    ("images", .strList r.images),
    ("type", .str r.type) ]

/-- A required front-matter field is missing (or has the wrong kind of value). -/
def requiredFieldMissing (fm : FrontMatter) : Bool :=
  (getStr fm "title").isNone || (getStr fm "date").isNone ||
  (getStrList fm "tags").isNone || (getBool fm "draft").isNone ||
  (getStr fm "summary").isNone || (getStrList fm "images").isNone ||
  (getStr fm "type").isNone

/-- The date field does not parse as a valid calendar date. -/
def unparseableDate (fm : FrontMatter) : Bool :=
  match getStr fm "date" with
  | some d => (parseDate d).isNone
  | none => true

/-- Malformed front-matter: a missing required field or an unparseable date. -/
def malformed (fm : FrontMatter) : Bool :=
  requiredFieldMissing fm || unparseableDate fm

/-- Modelled from the spec: loading the whole collection at build time.  The
build produces the list of records only when every document parses; a single
malformed document fails the whole build rather than being dropped. -/
def loadBlogPosts : List FrontMatter → Option (List PostRecord)
  | [] => some []
  | fm :: rest =>
    match parseFrontMatter fm, loadBlogPosts rest with
    | some r, some rs => some (r :: rs)
    | _, _ => none

/-- The six-field shape satisfied by every supplied document: `title`, `date`
(valid calendar date), `tags`, `draft`, `summary`, `images` present with their
declared kinds; the `type` requirement is left out. -/
def conformsSix (fm : FrontMatter) : Bool :=
  (getStr fm "title").isSome && !unparseableDate fm &&
  (getStrList fm "tags").isSome && (getBool fm "draft").isSome &&
  (getStr fm "summary").isSome && (getStrList fm "images").isSome

/-- The `Project` interface of `src/data/projectsData.ts`, lines 1-6:
`title` and `description` required, `href` and `imgSrc` optional. -/
structure Project where
  title : String
  description : String
  href : Option String := none
  imgSrc : Option String := none
deriving DecidableEq, Repr

/-- First entry of `projectsData` (`src/data/projectsData.ts`, lines 9-14). -/
def mossaik : Project :=
  { title := "Mossaik",
    description := "This project started as a remake of WickedBackgrounds, but it turned into a full featured design tool. It's a design tool to create patterns, waves, blobs and other shapes.",
    imgSrc := some "/static/images/mossaik.png",
    href := some "https://mossaik.app/" }

/-- Second entry of `projectsData` (`src/data/projectsData.ts`, lines 15-20). -/
def oxbowUI : Project :=
  { title := "Oxbow UI",
    description := "Collection of HTML blocks to build pages and apps faster. The blocks are done with Tailwind CSS, which makes easy to copy and paste the blocks. All the blocks are design by Mike Andreuzza and I've worked adding authentication, security and tweaks.",
    imgSrc := some "/static/images/oxbow.png",
    href := some "https://oxbowui.com/" }

/-- Third entry of `projectsData` (`src/data/projectsData.ts`, lines 21-26). -/
def wickedBackgrounds : Project :=
  { title := "Wicked Backgrounds",
    description := "This is a small side project I did to generate svg backgrounds. it's been featured on many websites like Codrops, Speckyboy or even in CSS-Tricks. UI design done by Mike Andreuzza.",
    imgSrc := some "/static/images/wickedbackgrounds.png",
    href := some "https://www.wickedbackgrounds.com" }

/-- The project list `projectsData` of `src/data/projectsData.ts`, lines 8-27. -/
def projectsData : List Project := [mossaik, oxbowUI, wickedBackgrounds]

/-- C1: every blog post whose draft flag is true is excluded from the public,
date-sorted listing while remaining in the full collection, and every post
with draft false appears in the public listing. -/
theorem draft_flag_controls_public_listing :
    ∀ fm ∈ blogDocuments,
      (draftOf fm = true → fm ∉ publicListing ∧ fm ∈ blogDocuments) ∧
      (draftOf fm = false → fm ∈ publicListing) := by decide

/-- Witness for C1: the draft post `Understanding OTP` is absent from the
public listing and present in the full collection. -/
theorem draft_flag_controls_public_listing_witness :
    understandingOTP ∉ publicListing ∧ understandingOTP ∈ blogDocuments :=
  (draft_flag_controls_public_listing understandingOTP (by decide)).1 (by decide)

/-- C2: the public chronological listing is sorted by date descending: each
adjacent pair is non-increasing in date. -/
theorem public_listing_date_nonincreasing :
    List.Chain' (fun a b => dateKeyN b ≤ dateKeyN a) publicListing := by
  have h : publicListing =
      [structsVsEmbeddedSchemas, makingACustomCredoRule, elixirResources] := by decide
  rw [h]
  exact List.chain'_cons.mpr ⟨by decide,
    List.chain'_cons.mpr ⟨by decide, List.chain'_singleton _⟩⟩

/-- Counterexample for C3: the claim that every document carries all seven
front-matter fields fails at the `Understanding OTP` document, which is in
the collection, declares no `type` field, and does not parse into the
seven-field record shape. -/
theorem understandingOTP_lacks_type_field :
    understandingOTP ∈ blogDocuments ∧ getStr understandingOTP "type" = none ∧
    parseFrontMatter understandingOTP = none := by decide

/-- C3 (amended): every document conforms to the six-field shape `title`,
`date` (a valid calendar date), `tags`, `draft`, `summary`, `images` with the
declared value kinds, and every document other than `Understanding OTP` also
carries a string `type` field. -/
theorem blog_documents_conform_modulo_type :
    ∀ fm ∈ blogDocuments, conformsSix fm = true ∧
      ((getStr fm "type").isSome = true ∨ fm = understandingOTP) := by decide

/-- Witness for the amended C3 at a concrete document. -/
theorem blog_documents_conform_modulo_type_witness :
    conformsSix structsVsEmbeddedSchemas = true ∧
      ((getStr structsVsEmbeddedSchemas "type").isSome = true ∨
        structsVsEmbeddedSchemas = understandingOTP) :=
  blog_documents_conform_modulo_type structsVsEmbeddedSchemas (by decide)

/-- Counterexample for C4: no post in the collection has draft true together
with date `2025-03-29` (the only post with that date has draft false), and no
post dated `2024-10-26` occurs in the public listing (the only post with
that date is the draft), so both parts of the claimed example fail. -/
theorem example_posts_claim_fails :
    blogDocuments.all (fun fm => !(draftOf fm && getStr fm "date" == some "2025-03-29")) = true ∧
    publicListing.all (fun fm => !(getStr fm "date" == some "2024-10-26")) = true ∧
    draftOf makingACustomCredoRule = false ∧
    getStr makingACustomCredoRule "date" = some "2025-03-29" ∧
    makingACustomCredoRule ∈ blogDocuments := by decide

/-- C4 (amended): the post dated `2025-04-08` with draft false appears before
the post dated `2025-03-29` in the public listing, and the post with draft
true, dated `2024-10-26`, is absent from the public listing but present in
the all-posts-including-drafts view. -/
theorem example_posts_ordering :
    publicListing.indexOf structsVsEmbeddedSchemas <
      publicListing.indexOf makingACustomCredoRule ∧
    structsVsEmbeddedSchemas ∈ publicListing ∧
    makingACustomCredoRule ∈ publicListing ∧
    draftOf structsVsEmbeddedSchemas = false ∧
    getStr structsVsEmbeddedSchemas "date" = some "2025-04-08" ∧
    getStr makingACustomCredoRule "date" = some "2025-03-29" ∧
    draftOf understandingOTP = true ∧
    getStr understandingOTP "date" = some "2024-10-26" ∧
    understandingOTP ∉ publicListing ∧
    understandingOTP ∈ allPostsIncludingDrafts := by decide

/-- C5: a post is listed under the tag-index page for `t` iff it declares
`t` in its tags list. -/
theorem tag_grouping_correct :
    ∀ fm ∈ blogDocuments, ∀ t : String, fm ∈ postsForTag t ↔ t ∈ tagsOf fm := by
  intro fm hfm t
  simp [postsForTag, List.mem_filter, hfm]

/-- Witness for C5 at a concrete post and tag. -/
theorem tag_grouping_correct_witness :
    understandingOTP ∈ postsForTag "otp" ↔ "otp" ∈ tagsOf understandingOTP :=
  tag_grouping_correct understandingOTP (by decide) "otp"

/-- C6: every project record has a non-empty title and a non-empty
description (the `Project` interface makes both required and only `href` and
`imgSrc` optional). -/
theorem project_title_description_nonempty :
    ∀ p ∈ projectsData, p.title ≠ "" ∧ p.description ≠ "" := by decide

/-- Witness for C6 at a concrete project. -/
theorem project_title_description_nonempty_witness :
    mossaik.title ≠ "" ∧ mossaik.description ≠ "" :=
  project_title_description_nonempty mossaik (by decide)

/-- C7: serialize after parse is the identity on field values: for every
document of the collection, any record its front-matter parses to
re-serializes to exactly the original front-matter. -/
theorem frontmatter_roundtrip :
    ∀ fm ∈ blogDocuments, ∀ r ∈ parseFrontMatter fm,
      serializeFrontMatter r = fm := by decide

/-- Witness for C7 at a concrete document. -/
theorem frontmatter_roundtrip_witness :
    serializeFrontMatter
      ⟨"Resources for learning Elixir", "2024-10-23",
       ["elixir", "learning", "resources"], false,
       "A list of resources to learn Elixir", [], "Blog"⟩ = elixirResources :=
  frontmatter_roundtrip elixirResources (by decide) _ (by decide)

/-- C9: every project in the current list defines both optional fields
`href` and `imgSrc` with non-empty values, so the rendering branch that
omits a missing link or image is never taken on this data. -/
theorem projects_define_href_imgSrc :
    ∀ p ∈ projectsData,
      p.href.isSome = true ∧ p.imgSrc.isSome = true ∧
      p.href.getD "" ≠ "" ∧ p.imgSrc.getD "" ≠ "" := by decide

/-- Witness for C9 at a concrete project. -/
theorem projects_define_href_imgSrc_witness :
    oxbowUI.href.isSome = true ∧ oxbowUI.imgSrc.isSome = true ∧
    oxbowUI.href.getD "" ≠ "" ∧ oxbowUI.imgSrc.getD "" ≠ "" :=
  projects_define_href_imgSrc oxbowUI (by decide)

/-- C10: the four posts' dates are exactly `2025-04-08`, `2024-10-23`,
`2025-03-29`, `2024-10-26`, they are pairwise distinct, and the public
listing is strictly decreasing by date. -/
theorem post_dates_distinct_listing_strict :
    blogDocuments.map (fun fm => getStr fm "date") =
      [some "2025-04-08", some "2024-10-23", some "2025-03-29", some "2024-10-26"] ∧
    (blogDocuments.map dateKeyN).Pairwise (· ≠ ·) ∧
    List.Chain' (fun a b => dateKeyN b < dateKeyN a) publicListing := by
  refine ⟨by decide, ?_, ?_⟩
  · have h : blogDocuments.map dateKeyN =
        [20250408, 20241023, 20250329, 20241026] := by decide
    rw [h]
    exact List.Pairwise.cons (by decide) (List.Pairwise.cons (by decide)
      (List.Pairwise.cons (by decide) (List.Pairwise.cons (by decide) List.Pairwise.nil)))
  · have h : publicListing =
        [structsVsEmbeddedSchemas, makingACustomCredoRule, elixirResources] := by decide
    rw [h]
    exact List.chain'_cons.mpr ⟨by decide,
      List.chain'_cons.mpr ⟨by decide, List.chain'_singleton _⟩⟩

/-- C8: parsing yields an error exactly when the front-matter is malformed
(a missing required field or an unparseable date), and a document that fails
to parse fails the whole collection build rather than being silently
dropped. -/
theorem parse_fails_iff_malformed :
    (∀ fm : FrontMatter, (parseFrontMatter fm).isNone = malformed fm) ∧
    (∀ docs : List FrontMatter, ∀ fm ∈ docs,
        parseFrontMatter fm = none → loadBlogPosts docs = none) := by
  constructor
  · intro fm
    unfold parseFrontMatter malformed requiredFieldMissing unparseableDate
    cases getStr fm "title" <;> cases hd : getStr fm "date" <;>
      cases getStrList fm "tags" <;> cases getBool fm "draft" <;>
      cases getStr fm "summary" <;> cases getStrList fm "images" <;>
      cases getStr fm "type" <;> simp <;> split <;> simp_all
  · intro docs
    induction docs with
    | nil => intro fm hfm; exact absurd hfm (List.not_mem_nil fm)
    | cons head tail ih =>
      intro fm hfm hparse
      rcases List.mem_cons.mp hfm with h | h
      · subst h
        simp [loadBlogPosts, hparse]
      · have htail := ih fm h hparse
        cases hph : parseFrontMatter head
        · simp [loadBlogPosts, hph]
        · simp [loadBlogPosts, hph, htail]

/-- Witness for C8: the `Understanding OTP` document is malformed (its
`type` field is missing) and its presence makes the collection build fail. -/
theorem parse_fails_iff_malformed_witness :
    (parseFrontMatter understandingOTP).isNone = malformed understandingOTP ∧
    loadBlogPosts blogDocuments = none :=
  ⟨parse_fails_iff_malformed.1 understandingOTP,
   parse_fails_iff_malformed.2 blogDocuments understandingOTP (by decide) (by decide)⟩
